import Mathlib

/-!
Verification of `go-to-wheel` (src/go_to_wheel/__init__.py): a shallow
embedding of the package's pure core — name normalization, content hashing,
metadata/manifest generation, wheel file-set assembly, and the multi-target
driver's control flow — together with theorems settling the specification
claims.

Bytes are modelled as `List Nat` (each entry a byte value), strings as Lean
`String` (backed by `List Char`), and Python dicts as insertion-ordered
association lists.
-/

/-! ## Generic string helpers

Small executable counterparts of the Python string operations the source
uses (`str.replace` with single-character arguments, `str.lower` on ASCII,
`str.endswith`, the `in` substring test, `str.join`). All are defined
directly over `String.data` so their behaviour is transparent. -/

/-- Map a character transformation over a string. -/
def strMap (f : Char → Char) (s : String) : String :=
  String.mk (s.data.map f)

/-- Python `s.replace(old, new)` restricted to single-character `old`/`new`:
a character-wise substitution. -/
def pyReplaceChar (old new : Char) (s : String) : String :=
  strMap (fun c => if c = old then new else c) s

/-- ASCII lowercase of one character, as Python `str.lower` acts on ASCII
input (the only input the package's name normalization is used with). -/
def pyToLower (c : Char) : Char :=
  if 65 ≤ c.toNat ∧ c.toNat ≤ 90 then Char.ofNat (c.toNat + 32) else c

/-- Python `s.lower()` on ASCII strings: character-wise ASCII lowering. -/
def pyLower (s : String) : String :=
  strMap pyToLower s

/-- Python `s.endswith(t)`: `t` is a suffix of `s`. -/
def strEndsWith (s t : String) : Bool :=
  decide (t.data.length ≤ s.data.length ∧
    s.data.drop (s.data.length - t.data.length) = t.data)

/-- Python `t in s`: `t` occurs as a contiguous substring of `s`. -/
def strContains (s t : String) : Bool :=
  (List.range (s.data.length + 1)).any
    (fun i => decide ((s.data.drop i).take t.data.length = t.data))

/-- Python `s.startswith(t)`, used to phrase the spec's notion of a
leading path segment. -/
def strStartsWith (s t : String) : Bool :=
  decide (s.data.take t.data.length = t.data)

/-- Python `sep.join(parts)`. -/
def pyJoin (sep : String) : List String → String
  | [] => ""
  | [x] => x
  | x :: y :: rest => x ++ sep ++ pyJoin sep (y :: rest)

/-! ## Naming Normalizer (source lines 43–50) -/

/-- Function `normalize_package_name` from the source:
`name.replace("-", "_").replace(".", "_").lower()`. -/
def normalize_package_name (name : String) : String :=
  pyLower (pyReplaceChar '.' '_' (pyReplaceChar '-' '_' name))

/-- Function `normalize_import_name` from the source: the same computation as
`normalize_package_name`. -/
def normalize_import_name (name : String) : String :=
  pyLower (pyReplaceChar '.' '_' (pyReplaceChar '-' '_' name))

/-! ### Facts about the normalizer -/

theorem pyToLower_of_upper :
    ∀ n, 65 ≤ n → n ≤ 90 →
      pyToLower (Char.ofNat (n + 32)) = Char.ofNat (n + 32) ∧
      Char.ofNat (n + 32) ≠ '-' ∧ Char.ofNat (n + 32) ≠ '.' := by
  intro n h1 h2
  interval_cases n <;> exact ⟨by decide, by decide, by decide⟩

theorem pyToLower_idem (c : Char) : pyToLower (pyToLower c) = pyToLower c := by
  by_cases h : 65 ≤ c.toNat ∧ c.toNat ≤ 90
  · have h1 : pyToLower c = Char.ofNat (c.toNat + 32) := by
      rw [pyToLower, if_pos h]
    rw [h1]
    exact (pyToLower_of_upper c.toNat h.1 h.2).1
  · have h1 : pyToLower c = c := by rw [pyToLower, if_neg h]
    rw [h1]
    exact h1

theorem pyToLower_ne_dash (c : Char) (h : c ≠ '-') : pyToLower c ≠ '-' := by
  by_cases hu : 65 ≤ c.toNat ∧ c.toNat ≤ 90
  · rw [pyToLower, if_pos hu]
    exact (pyToLower_of_upper c.toNat hu.1 hu.2).2.1
  · rw [pyToLower, if_neg hu]; exact h

theorem pyToLower_ne_dot (c : Char) (h : c ≠ '.') : pyToLower c ≠ '.' := by
  by_cases hu : 65 ≤ c.toNat ∧ c.toNat ≤ 90
  · rw [pyToLower, if_pos hu]
    exact (pyToLower_of_upper c.toNat hu.1 hu.2).2.2
  · rw [pyToLower, if_neg hu]; exact h

/-- The per-character action of the normalizer. -/
def normalizeChar (c : Char) : Char :=
  pyToLower (if (if c = '-' then '_' else c) = '.' then '_'
             else if c = '-' then '_' else c)

theorem normalize_package_name_data (s : String) :
    (normalize_package_name s).data = s.data.map normalizeChar := by
  simp only [normalize_package_name, pyLower, pyReplaceChar, strMap,
    List.map_map]
  rfl

theorem normalizeChar_idem (c : Char) : normalizeChar (normalizeChar c) = normalizeChar c := by
  have hsub : ∀ d : Char,
      (if (if d = '-' then '_' else d) = '.' then '_'
       else if d = '-' then '_' else d) ≠ '-' ∧
      (if (if d = '-' then '_' else d) = '.' then '_'
       else if d = '-' then '_' else d) ≠ '.' := by
    intro d
    by_cases h1 : d = '-'
    · simp [h1]
    · by_cases h2 : d = '.' <;> simp [h1, h2]
  have hd : normalizeChar c ≠ '-' :=
    pyToLower_ne_dash _ (hsub _).1
  have hp : normalizeChar c ≠ '.' :=
    pyToLower_ne_dot _ (hsub _).2
  have key : ∀ d : Char, d ≠ '-' → d ≠ '.' → normalizeChar d = pyToLower d := by
    intro d h1 h2
    simp [normalizeChar, h1, h2]
  have hdef : normalizeChar c =
      pyToLower (if (if c = '-' then '_' else c) = '.' then '_'
                 else if c = '-' then '_' else c) := rfl
  rw [key _ hd hp, hdef]
  exact pyToLower_idem _

/-- C7: The name normalizer is idempotent: for every string s,
normalize(normalize(s)) equals normalize(s), so normalizing an
already-normalized name returns it unchanged; and normalize("My-Tool.X")
equals "my_tool_x". -/
theorem C7_normalize_idempotent :
    (∀ s : String,
      normalize_package_name (normalize_package_name s) = normalize_package_name s) ∧
    normalize_package_name "My-Tool.X" = "my_tool_x" := by
  constructor
  · intro s
    apply String.ext
    rw [normalize_package_name_data]
    rw [normalize_package_name_data]
    induction s.data with
    | nil => rfl
    | cons a l ih =>
        simp only [List.map_cons, normalizeChar_idem, ih]
  · decide

/-! ## Content Hasher (source lines 53–57)

`compute_file_hash` computes `hashlib.sha256(data).digest()`, base64url
encodes it (`base64.urlsafe_b64encode`), strips trailing `=` padding
(`rstrip(b"=")`) and prepends `sha256=`. SHA-256 is embedded below following
FIPS 180-4, on `Nat` with explicit reduction modulo 2^32; base64url follows
RFC 4648 §5. -/

/-- Truncation to a 32-bit word. -/
def w32 (n : Nat) : Nat := n % 4294967296

/-- 32-bit right rotation (input assumed < 2^32). -/
def rotr32 (x k : Nat) : Nat := w32 ((x >>> k) ||| (x <<< (32 - k)))

/-- The SHA-256 round constants. -/
def sha256K : List Nat :=
  [1116352408, 1899447441, 3049323471, 3921009573, 961987163, 1508970993,
   2453635748, 2870763221, 3624381080, 310598401, 607225278, 1426881987,
   1925078388, 2162078206, 2614888103, 3248222580, 3835390401, 4022224774,
   264347078, 604807628, 770255983, 1249150122, 1555081692, 1996064986,
   2554220882, 2821834349, 2952996808, 3210313671, 3336571891, 3584528711,
   113926993, 338241895, 666307205, 773529912, 1294757372, 1396182291,
   1695183700, 1986661051, 2177026350, 2456956037, 2730485921, 2820302411,
   3259730800, 3345764771, 3516065817, 3600352804, 4094571909, 275423344,
   430227734, 506948616, 659060556, 883997877, 958139571, 1322822218,
   1537002063, 1747873779, 1955562222, 2024104815, 2227730452, 2361852424,
   2428436474, 2756734187, 3204031479, 3329325298]

/-- The SHA-256 initial hash state. -/
def sha256H0 : List Nat :=
  [1779033703, 3144134277, 1013904242, 2773480762, 1359893119, 2600822924,
   528734635, 1541459225]

/-- Big-endian byte serialization of `n` into `k` bytes. -/
def beBytes (k n : Nat) : List Nat :=
  (List.range k).map (fun i => (n >>> (8 * (k - 1 - i))) % 256)

/-- SHA-256 message padding: a `0x80` byte, zeros to 56 mod 64, then the
bit length in 8 big-endian bytes. -/
def sha256Pad (msg : List Nat) : List Nat :=
  msg ++ [128] ++ List.replicate ((120 - (msg.length + 1) % 64) % 64) 0 ++
    beBytes 8 (msg.length * 8)

/-- Group bytes into big-endian 32-bit words. -/
def toWords32 : List Nat → List Nat
  | a :: b :: c :: d :: rest =>
      ((a <<< 24) ||| (b <<< 16) ||| (c <<< 8) ||| d) :: toWords32 rest
  | _ => []

/-- Split a byte list into 64-byte blocks. -/
def chunks64 : List Nat → List (List Nat)
  | [] => []
  | x :: xs => (x :: xs).take 64 :: chunks64 ((x :: xs).drop 64)
termination_by l => l.length
decreasing_by simp; omega

def smallSigma0 (x : Nat) : Nat := (rotr32 x 7) ^^^ (rotr32 x 18) ^^^ (x >>> 3)

def smallSigma1 (x : Nat) : Nat := (rotr32 x 17) ^^^ (rotr32 x 19) ^^^ (x >>> 10)

def bigSigma0 (x : Nat) : Nat := (rotr32 x 2) ^^^ (rotr32 x 13) ^^^ (rotr32 x 22)

def bigSigma1 (x : Nat) : Nat := (rotr32 x 6) ^^^ (rotr32 x 11) ^^^ (rotr32 x 25)

/-- Extend the 16-word message schedule by `fuel` further words. -/
def extendSchedule : List Nat → Nat → List Nat
  | ws, 0 => ws
  | ws, fuel + 1 =>
      let n := ws.length
      extendSchedule
        (ws ++ [w32 (smallSigma1 (ws.getD (n - 2) 0) + ws.getD (n - 7) 0 +
                     smallSigma0 (ws.getD (n - 15) 0) + ws.getD (n - 16) 0)])
        fuel

/-- The eight 32-bit working variables of the SHA-256 compression loop. -/
structure Sha256State where
  a : Nat
  b : Nat
  c : Nat
  d : Nat
  e : Nat
  f : Nat
  g : Nat
  h : Nat

/-- One round of the SHA-256 compression function. -/
def compressRound (st : Sha256State) (kw : Nat × Nat) : Sha256State :=
  let s1 := bigSigma1 st.e
  let ch := (st.e &&& st.f) ^^^ ((st.e ^^^ 4294967295) &&& st.g)
  let temp1 := w32 (st.h + s1 + ch + kw.1 + kw.2)
  let s0 := bigSigma0 st.a
  let maj := (st.a &&& st.b) ^^^ (st.a &&& st.c) ^^^ (st.b &&& st.c)
  let temp2 := w32 (s0 + maj)
  ⟨w32 (temp1 + temp2), st.a, st.b, st.c, w32 (st.d + temp1), st.e, st.f, st.g⟩

/-- Process one 64-byte chunk, updating the eight-word hash state. -/
def processChunk (hs : List Nat) (chunk : List Nat) : List Nat :=
  let ws := extendSchedule (toWords32 chunk) 48
  let st0 : Sha256State :=
    ⟨hs.getD 0 0, hs.getD 1 0, hs.getD 2 0, hs.getD 3 0,
     hs.getD 4 0, hs.getD 5 0, hs.getD 6 0, hs.getD 7 0⟩
  let st := (sha256K.zip ws).foldl compressRound st0
  [w32 (hs.getD 0 0 + st.a), w32 (hs.getD 1 0 + st.b), w32 (hs.getD 2 0 + st.c),
   w32 (hs.getD 3 0 + st.d), w32 (hs.getD 4 0 + st.e), w32 (hs.getD 5 0 + st.f),
   w32 (hs.getD 6 0 + st.g), w32 (hs.getD 7 0 + st.h)]

/-- SHA-256 digest (32 bytes) of a byte list, per FIPS 180-4. -/
def sha256 (msg : List Nat) : List Nat :=
  (((chunks64 (sha256Pad msg)).foldl processChunk sha256H0).map (beBytes 4)).flatten

/-- The base64url alphabet (RFC 4648 §5), as used by
`base64.urlsafe_b64encode`. -/
def b64UrlTable : List Char :=
  "ABCDEFGHIJKLMNOPQRSTUVWXYZabcdefghijklmnopqrstuvwxyz0123456789-_".data

def b64UrlChar (n : Nat) : Char := b64UrlTable.getD n 'A'

/-- base64url encoding with `=` padding, per RFC 4648 §5. -/
def b64UrlEncode : List Nat → List Char
  | a :: b :: c :: rest =>
      b64UrlChar (a >>> 2) :: b64UrlChar (((a &&& 3) <<< 4) ||| (b >>> 4)) ::
      b64UrlChar (((b &&& 15) <<< 2) ||| (c >>> 6)) :: b64UrlChar (c &&& 63) ::
      b64UrlEncode rest
  | [a, b] =>
      [b64UrlChar (a >>> 2), b64UrlChar (((a &&& 3) <<< 4) ||| (b >>> 4)),
       b64UrlChar ((b &&& 15) <<< 2), '=']
  | [a] => [b64UrlChar (a >>> 2), b64UrlChar ((a &&& 3) <<< 4), '=', '=']
  | [] => []

/-- Remove all trailing `=` characters, as Python's `rstrip(b"=")` does. -/
def stripTrailingPad (l : List Char) : List Char :=
  (l.reverse.dropWhile (· = '=')).reverse

/-- Function `compute_file_hash` from the source: SHA-256, base64url-encoded with
the `=` padding stripped, prefixed by `sha256=`. -/
def compute_file_hash (data : List Nat) : String :=
  "sha256=" ++ String.mk (stripTrailingPad (b64UrlEncode (sha256 data)))

/-! ### Facts about the hasher -/

theorem head?_dropWhile_not (p : Char → Bool) (l : List Char) (a : Char)
    (h : (l.dropWhile p).head? = some a) : p a = false := by
  induction l with
  | nil => simp at h
  | cons x xs ih =>
      rw [List.dropWhile_cons] at h
      by_cases hp : p x
      · simp [hp] at h; exact ih h
      · simp [hp] at h; subst h; simp [hp]

/-- Function `stripTrailingPad` removes exactly a trailing block of `=` characters
and leaves no trailing `=` behind. -/
theorem stripTrailingPad_spec (l : List Char) :
    ∃ k, l = stripTrailingPad l ++ List.replicate k '=' ∧
      (stripTrailingPad l).getLast? ≠ some '=' := by
  refine ⟨(l.reverse.takeWhile (· = '=')).length, ?_, ?_⟩
  · conv_lhs => rw [← l.reverse_reverse,
      ← List.takeWhile_append_dropWhile (· = '=') l.reverse]
    rw [List.reverse_append]
    have hrep : l.reverse.takeWhile (· = '=') =
        List.replicate (l.reverse.takeWhile (· = '=')).length '=' :=
      List.eq_replicate_of_mem (fun b hb => by
        have := List.mem_takeWhile_imp hb
        simpa using this)
    rw [stripTrailingPad]
    conv_lhs => rw [hrep, List.reverse_replicate]
  · rw [stripTrailingPad, List.getLast?_reverse]
    intro h
    have := head?_dropWhile_not _ _ _ h
    simp at this

/-- The hash string is never empty (it starts with `sha256=`). -/
theorem compute_file_hash_ne_empty (data : List Nat) :
    compute_file_hash data ≠ "" := by
  intro h
  have h2 := congrArg String.data h
  rw [compute_file_hash, String.data_append] at h2
  simp at h2

/-- C6: For every byte blob b, compute_file_hash(b) equals the string
'sha256=' followed by the base64url encoding of the SHA-256 digest of b
with '=' padding stripped, and any two calls on equal inputs return equal
outputs. -/
theorem C6_compute_file_hash_format :
    (∀ data : List Nat,
      compute_file_hash data =
        "sha256=" ++ String.mk (stripTrailingPad (b64UrlEncode (sha256 data))) ∧
      ∃ k, b64UrlEncode (sha256 data) =
          stripTrailingPad (b64UrlEncode (sha256 data)) ++ List.replicate k '=' ∧
        (stripTrailingPad (b64UrlEncode (sha256 data))).getLast? ≠ some '=') ∧
    (∀ d1 d2 : List Nat, d1 = d2 → compute_file_hash d1 = compute_file_hash d2) := by
  constructor
  · intro data
    exact ⟨rfl, stripTrailingPad_spec _⟩
  · intro d1 d2 h
    rw [h]

/-- Witness for C6 at the empty byte blob. -/
theorem C6_compute_file_hash_format_witness :
    (([] : List Nat) = []) ∧ compute_file_hash [] = compute_file_hash [] :=
  ⟨rfl, C6_compute_file_hash_format.2 [] [] rfl⟩

/-! ## Package metadata generator (source lines 144–180)

`generate_metadata` builds a list of `key: value` lines and returns
`"\n".join(lines) + "\n"`. An optional attribute contributes its line only
when it is truthy in Python's sense, i.e. present and non-empty. -/

theorem pyJoin_cons_cons (sep a b : String) (bs : List String) :
    pyJoin sep (a :: b :: bs) = a ++ sep ++ pyJoin sep (b :: bs) := rfl

theorem pyJoin_single (sep x : String) : pyJoin sep [x] = x := rfl

theorem pyJoin_cons_ne (x : String) (l : List String) (h : l ≠ []) :
    pyJoin "\n" (x :: l) = x ++ "\n" ++ pyJoin "\n" l := by
  cases l with
  | nil => exact absurd rfl h
  | cons y ys => rfl

theorem string_data_nil : ("" : String).data = [] := rfl

/-- The long-description content-type marker line appended when a README
body is present. -/
def contentTypeMarker : String := "Description-Content-Type: text/markdown"

/-- Lines contributed by one optional attribute, mirroring the source's
truthiness test `if attr: lines.append(...)` (absent or empty means no
line). -/
def optMetaLine (key : String) : Option String → List String
  | some s => if s = "" then [] else [key ++ s]
  | none => []

/-- Lines contributed by the README body, mirroring `if readme_content:`
in the source: the content-type marker, a blank line, and the verbatim
README text. -/
def readmeLines : Option String → List String
  | some r => if r = "" then [] else [contentTypeMarker, "", r]
  | none => []

/-- The `lines` list built by `generate_metadata` (source lines 156–178). -/
def metadataLines (name version description requires_python : String)
    (author author_email license_ url readme_content : Option String) : List String :=
  ["Metadata-Version: 2.1", "Name: " ++ name, "Version: " ++ version,
   "Summary: " ++ description]
  ++ optMetaLine "Author: " author
  ++ optMetaLine "Author-email: " author_email
  ++ optMetaLine "License: " license_
  ++ optMetaLine "Home-page: " url
  ++ (("Requires-Python: " ++ requires_python) :: readmeLines readme_content)

/-- Function `generate_metadata` from the source:
`"\n".join(lines) + "\n"`. -/
def generate_metadata (name version description requires_python : String)
    (author author_email license_ url readme_content : Option String) : String :=
  pyJoin "\n" (metadataLines name version description requires_python
    author author_email license_ url readme_content) ++ "\n"

/-- Serialized form of one optional attribute's line, with its terminating
newline. -/
def strOptLine (key : String) : Option String → String
  | some s => if s = "" then "" else key ++ s ++ "\n"
  | none => ""

/-- The metadata text up to and including the `Requires-Python` line: the
fixed-order header lines, the optional attribute lines in order, and the
always-present `Requires-Python` line. -/
def metadataBase (name version description requires_python : String)
    (author author_email license_ url : Option String) : String :=
  "Metadata-Version: 2.1" ++ "\n" ++ ("Name: " ++ name) ++ "\n" ++
  ("Version: " ++ version) ++ "\n" ++ ("Summary: " ++ description) ++ "\n" ++
  strOptLine "Author: " author ++ strOptLine "Author-email: " author_email ++
  strOptLine "License: " license_ ++ strOptLine "Home-page: " url ++
  ("Requires-Python: " ++ requires_python) ++ "\n"

theorem append_ne_nil_right (l1 l2 : List String) (h : l2 ≠ []) : l1 ++ l2 ≠ [] := by
  intro hh
  rcases List.append_eq_nil.mp hh with ⟨-, h2⟩
  exact h h2

theorem pyJoin_optLine_term (key : String) (v : Option String) (l : List String)
    (h : l ≠ []) :
    pyJoin "\n" (optMetaLine key v ++ l) ++ "\n" =
      strOptLine key v ++ (pyJoin "\n" l ++ "\n") := by
  cases v with
  | none =>
      apply String.ext
      simp [optMetaLine, strOptLine, String.data_append, string_data_nil]
  | some s =>
      by_cases hs : s = ""
      · apply String.ext
        simp [optMetaLine, strOptLine, hs, String.data_append, string_data_nil]
      · simp only [optMetaLine, strOptLine, if_neg hs]
        rw [List.singleton_append, pyJoin_cons_ne _ _ h]
        apply String.ext
        simp [String.data_append]

theorem pyJoin_fixed4_term (m1 m2 m3 m4 : String) (l : List String) (h : l ≠ []) :
    pyJoin "\n" (m1 :: m2 :: m3 :: m4 :: l) ++ "\n" =
      m1 ++ "\n" ++ m2 ++ "\n" ++ m3 ++ "\n" ++ m4 ++ "\n" ++ (pyJoin "\n" l ++ "\n") := by
  rw [pyJoin_cons_cons, pyJoin_cons_cons, pyJoin_cons_cons, pyJoin_cons_ne m4 l h]
  apply String.ext
  simp [String.data_append]

theorem pyJoin_opts_term (a ae li u : Option String) (l : List String) (h : l ≠ []) :
    pyJoin "\n" (optMetaLine "Author: " a ++ (optMetaLine "Author-email: " ae ++
      (optMetaLine "License: " li ++ (optMetaLine "Home-page: " u ++ l)))) ++ "\n" =
    strOptLine "Author: " a ++ (strOptLine "Author-email: " ae ++
      (strOptLine "License: " li ++ (strOptLine "Home-page: " u ++
        (pyJoin "\n" l ++ "\n")))) := by
  rw [pyJoin_optLine_term _ a _ (append_ne_nil_right _ _ (append_ne_nil_right _ _
        (append_ne_nil_right _ _ h)))]
  rw [pyJoin_optLine_term _ ae _ (append_ne_nil_right _ _ (append_ne_nil_right _ _ h))]
  rw [pyJoin_optLine_term _ li _ (append_ne_nil_right _ _ h)]
  rw [pyJoin_optLine_term _ u _ h]

theorem generate_metadata_base (n v d rp : String) (a ae li u : Option String)
    (r : Option String) (hr : readmeLines r = []) :
    generate_metadata n v d rp a ae li u r = metadataBase n v d rp a ae li u := by
  rw [generate_metadata, metadataLines, hr]
  simp only [List.cons_append, List.nil_append, List.append_assoc]
  rw [pyJoin_fixed4_term _ _ _ _ _ (append_ne_nil_right _ _ (append_ne_nil_right _ _
        (append_ne_nil_right _ _ (append_ne_nil_right _ _ (by simp)))))]
  rw [pyJoin_opts_term a ae li u _ (by simp)]
  apply String.ext
  simp [metadataBase, pyJoin_single, String.data_append]

theorem generate_metadata_readme (n v d rp : String) (a ae li u : Option String)
    (s : String) (hs : s ≠ "") :
    generate_metadata n v d rp a ae li u (some s) =
      metadataBase n v d rp a ae li u ++
        (contentTypeMarker ++ "\n" ++ "\n" ++ s ++ "\n") := by
  rw [generate_metadata, metadataLines]
  rw [show readmeLines (some s) = [contentTypeMarker, "", s] by simp [readmeLines, hs]]
  simp only [List.cons_append, List.nil_append, List.append_assoc]
  rw [pyJoin_fixed4_term _ _ _ _ _ (append_ne_nil_right _ _ (append_ne_nil_right _ _
        (append_ne_nil_right _ _ (append_ne_nil_right _ _ (by simp)))))]
  rw [pyJoin_opts_term a ae li u _ (by simp)]
  rw [pyJoin_cons_cons, pyJoin_cons_cons, pyJoin_cons_cons]
  apply String.ext
  simp [metadataBase, pyJoin_single, String.data_append, string_data_nil]

theorem mem_optMetaLine (key x : String) (v : Option String)
    (h : x ∈ optMetaLine key v) : ∃ s, x = key ++ s := by
  cases v with
  | none => simp [optMetaLine] at h
  | some s =>
      by_cases hs : s = "" <;> simp [optMetaLine, hs] at h
      exact ⟨s, h⟩

theorem key_line_ne_marker (key s : String) (c : Char) (cs : List Char)
    (hk : key.data = c :: cs) (hc : c ≠ 'D') : key ++ s ≠ contentTypeMarker := by
  intro h
  have h2 := congrArg String.data h
  rw [String.data_append, hk, List.cons_append] at h2
  have h3 : contentTypeMarker.data =
      'D' :: "escription-Content-Type: text/markdown".data := rfl
  rw [h3] at h2
  injection h2 with hhead _
  exact hc hhead

theorem marker_not_mem_metadataLines (n v d rp : String) (a ae li u : Option String)
    (r : Option String) (hr : readmeLines r = []) :
    contentTypeMarker ∉ metadataLines n v d rp a ae li u r := by
  intro hmem
  rw [metadataLines, hr] at hmem
  simp only [List.mem_append, List.mem_cons, List.mem_singleton,
    List.not_mem_nil, or_false] at hmem
  rcases hmem with (((((h | h | h | h) | h) | h) | h) | h) | h
  · exact absurd h (by decide)
  · exact key_line_ne_marker "Name: " n 'N' _ rfl (by decide) h.symm
  · exact key_line_ne_marker "Version: " v 'V' _ rfl (by decide) h.symm
  · exact key_line_ne_marker "Summary: " d 'S' _ rfl (by decide) h.symm
  · obtain ⟨s, hs⟩ := mem_optMetaLine _ _ _ h
    exact key_line_ne_marker "Author: " s 'A' _ rfl (by decide) hs.symm
  · obtain ⟨s, hs⟩ := mem_optMetaLine _ _ _ h
    exact key_line_ne_marker "Author-email: " s 'A' _ rfl (by decide) hs.symm
  · obtain ⟨s, hs⟩ := mem_optMetaLine _ _ _ h
    exact key_line_ne_marker "License: " s 'L' _ rfl (by decide) hs.symm
  · obtain ⟨s, hs⟩ := mem_optMetaLine _ _ _ h
    exact key_line_ne_marker "Home-page: " s 'H' _ rfl (by decide) hs.symm
  · exact key_line_ne_marker "Requires-Python: " rp 'R' _ rfl (by decide) h.symm

/-- Collapse an empty-string optional attribute to an absent one. -/
def emptyToNone : Option String → Option String
  | some s => if s = "" then none else some s
  | none => none

theorem optMetaLine_emptyToNone (key : String) (v : Option String) :
    optMetaLine key (emptyToNone v) = optMetaLine key v := by
  cases v with
  | none => rfl
  | some s =>
      by_cases hs : s = "" <;> simp [emptyToNone, optMetaLine, hs]

theorem readmeLines_emptyToNone (v : Option String) :
    readmeLines (emptyToNone v) = readmeLines v := by
  cases v with
  | none => rfl
  | some s =>
      by_cases hs : s = "" <;> simp [emptyToNone, readmeLines, hs]

/-- C10: For every optional metadata attribute (author, author_email,
license_, url, readme_content), passing the empty string to
generate_metadata produces output identical to passing None: the
corresponding line is omitted, and in particular an empty-string README
body adds no content-type marker and no long-description block. -/
theorem C10_empty_equals_none :
    (∀ (n v d rp : String) (a ae li u r : Option String),
      generate_metadata n v d rp (emptyToNone a) (emptyToNone ae) (emptyToNone li)
        (emptyToNone u) (emptyToNone r) = generate_metadata n v d rp a ae li u r) ∧
    (∀ (n v d rp : String) (a ae li u : Option String),
      contentTypeMarker ∉ metadataLines n v d rp a ae li u (some "")) := by
  constructor
  · intro n v d rp a ae li u r
    rw [generate_metadata, generate_metadata, metadataLines, metadataLines,
      optMetaLine_emptyToNone, optMetaLine_emptyToNone, optMetaLine_emptyToNone,
      optMetaLine_emptyToNone, readmeLines_emptyToNone]
  · intro n v d rp a ae li u
    exact marker_not_mem_metadataLines n v d rp a ae li u (some "")
      (by simp [readmeLines])

/-- Claim C5 as stated: the output consists of the fixed-order header, the
optional lines (each only when present), the always-present
`Requires-Python` line; with no README the output contains no content-type
marker line, and with a README body supplied the output appends the marker
line, a blank line, then the verbatim README text terminally. -/
def C5Claim (n v d rp : String) (a ae li u : Option String) (r : Option String) : Prop :=
  (r = none →
    generate_metadata n v d rp a ae li u r = metadataBase n v d rp a ae li u ∧
    contentTypeMarker ∉ metadataLines n v d rp a ae li u r) ∧
  (∀ s, r = some s →
    generate_metadata n v d rp a ae li u r =
      metadataBase n v d rp a ae li u ++
        (contentTypeMarker ++ "\n" ++ "\n" ++ s ++ "\n"))

/-- C5 counterexample: supplying an empty-string README body yields output
with no content-type marker at all, contradicting the claim's
readme-supplied clause. -/
theorem C5_counterexample :
    ¬ C5Claim "pkg" "2.3.4" "d" ">=3.10" none none none none (some "") := by
  intro h
  have h2 := h.2 "" rfl
  have hL : generate_metadata "pkg" "2.3.4" "d" ">=3.10" none none none none (some "") =
      "Metadata-Version: 2.1\nName: pkg\nVersion: 2.3.4\nSummary: d\nRequires-Python: >=3.10\n" := by
    decide
  rw [hL] at h2
  exact absurd h2 (by decide)

/-- C5 (amended): the output is the fixed-order lines Metadata-Version,
Name, Version, Summary, then Author, Author-email, License, Home-page each
included only when the attribute is present (and non-empty), then an
always-present Requires-Python line; with no README body, or an
empty-string one, the output is exactly that and contains no content-type
marker line; when a non-empty README body is supplied the output appends
the content-type marker line, one blank line, then the verbatim README
text as the terminal block with no further content. -/
theorem C5_generate_metadata_structure (n v d rp : String)
    (a ae li u : Option String) (r : Option String) :
    ((r = none ∨ r = some "") →
      generate_metadata n v d rp a ae li u r = metadataBase n v d rp a ae li u ∧
      contentTypeMarker ∉ metadataLines n v d rp a ae li u r) ∧
    (∀ s, r = some s → s ≠ "" →
      generate_metadata n v d rp a ae li u r =
        metadataBase n v d rp a ae li u ++
          (contentTypeMarker ++ "\n" ++ "\n" ++ s ++ "\n")) := by
  constructor
  · rintro (hr | hr) <;> subst hr
    · exact ⟨generate_metadata_base n v d rp a ae li u none rfl,
        marker_not_mem_metadataLines n v d rp a ae li u none rfl⟩
    · have h0 : readmeLines (some "") = [] := by simp [readmeLines]
      exact ⟨generate_metadata_base n v d rp a ae li u (some "") h0,
        marker_not_mem_metadataLines n v d rp a ae li u (some "") h0⟩
  · intro s hs hne
    subst hs
    exact generate_metadata_readme n v d rp a ae li u s hne

/-- Witness for C5 (amended) at a concrete non-empty README. -/
theorem C5_generate_metadata_structure_witness :
    generate_metadata "p" "1.0" "d" ">=3.10" none none none none (some "R") =
      metadataBase "p" "1.0" "d" ">=3.10" none none none none ++
        (contentTypeMarker ++ "\n" ++ "\n" ++ "R" ++ "\n") :=
  (C5_generate_metadata_structure "p" "1.0" "d" ">=3.10" none none none none
    (some "R")).2 "R" rfl (by decide)

/-! ## Launcher shim, format descriptor, entry points (source lines 101–196) -/

/-- UTF-8 byte encoding of one character. -/
def utf8EncodeChar (c : Char) : List Nat :=
  let n := c.toNat
  if n < 128 then [n]
  else if n < 2048 then [192 ||| (n >>> 6), 128 ||| (n &&& 63)]
  else if n < 65536 then
    [224 ||| (n >>> 12), 128 ||| ((n >>> 6) &&& 63), 128 ||| (n &&& 63)]
  else
    [240 ||| (n >>> 18), 128 ||| ((n >>> 12) &&& 63), 128 ||| ((n >>> 6) &&& 63),
     128 ||| (n &&& 63)]

/-- Python `s.encode("utf-8")`. -/
def utf8Encode (s : String) : List Nat :=
  (s.data.map utf8EncodeChar).flatten

/-- The tool's own `__version__` string (source line 17), embedded in the
WHEEL file's Generator line. -/
def goToWheelVersionStr : String := "0.1.0"

/-- Function `generate_init_py` from the source (lines 101–134): the
launcher package-init module text, with the version and binary name
interpolated. -/
def generate_init_py (version binary_name : String) : String :=
  "\"\"\"Go binary packaged as Python wheel.\"\"\"\n\nimport os\nimport stat\nimport subprocess\nimport sys\n\n__version__ = \"" ++
  version ++
  "\"\n\n\ndef get_binary_path():\n    \"\"\"Return the path to the bundled binary.\"\"\"\n    return os.path.join(os.path.dirname(__file__), \"bin\", \"" ++
  binary_name ++
  "\")\n\n\ndef main():\n    \"\"\"Execute the bundled binary.\"\"\"\n    binary = get_binary_path()\n\n    # Ensure binary is executable on Unix\n    if sys.platform != \"win32\":\n        current_mode = os.stat(binary).st_mode\n        if not (current_mode & stat.S_IXUSR):\n            os.chmod(binary, current_mode | stat.S_IXUSR | stat.S_IXGRP | stat.S_IXOTH)\n\n    if sys.platform == \"win32\":\n        # On Windows, use subprocess to properly handle signals\n        sys.exit(subprocess.call([binary] + sys.argv[1:]))\n    else:\n        # On Unix, exec replaces the process\n        os.execvp(binary, [binary] + sys.argv[1:])\n"

/-- Function `generate_main_py` from the source (lines 137–141). -/
def generate_main_py : String := "from . import main\nmain()\n"

/-- Function `generate_wheel_metadata` from the source (lines 183–189). -/
def generate_wheel_metadata (platform_tag : String) : String :=
  "Wheel-Version: 1.0\nGenerator: go-to-wheel " ++ goToWheelVersionStr ++
  "\nRoot-Is-Purelib: false\nTag: py3-none-" ++ platform_tag ++ "\n"

/-- Function `generate_entry_points` from the source (lines 192–196). -/
def generate_entry_points (entry_point import_name : String) : String :=
  "[console_scripts]\n" ++ entry_point ++ " = " ++ import_name ++ ":main\n"

/-! ## Integrity manifest generator (source lines 199–212)

`generate_record` iterates the file mapping in insertion order and emits one
CSV row per file via `csv.writer` (default dialect: comma delimiter,
minimal quoting, CRLF line terminator); a path ending in `RECORD` gets an
empty hash and empty length. -/

/-- Whether `csv.writer` (QUOTE_MINIMAL) must quote a field. -/
def csvNeedsQuote (s : String) : Bool :=
  s.data.any (fun c => decide (c = ',' ∨ c = '"' ∨ c = '\r' ∨ c = '\n'))

/-- Double every quote character, as CSV quoting requires. -/
def csvEscapeQuotes (s : String) : String :=
  String.mk ((s.data.map (fun c => if c = '"' then ['"', '"'] else [c])).flatten)

/-- One CSV field, quoted only when needed (QUOTE_MINIMAL). -/
def csvField (s : String) : String :=
  if csvNeedsQuote s then "\"" ++ csvEscapeQuotes s ++ "\"" else s

/-- The `(path, hash, length)` rows `generate_record` writes, in the file
mapping's insertion order. -/
def recordRows (files : List (String × List Nat)) : List (String × String × String) :=
  files.map (fun pc =>
    if strEndsWith pc.1 "RECORD" then (pc.1, "", "")
    else (pc.1, compute_file_hash pc.2, toString pc.2.length))

/-- Function `generate_record` from the source: the serialized CSV text of
`recordRows`. -/
def generate_record (files : List (String × List Nat)) : String :=
  ((recordRows files).map (fun row =>
    csvField row.1 ++ "," ++ csvField row.2.1 ++ "," ++ csvField row.2.2 ++ "\r\n")).foldr
    (fun a b => a ++ b) ""

/-! ## Single-target packager `build_wheel` (source lines 215–297)

The file mapping is a Python dict: insertion-ordered, inserting an existing
key overwrites in place. -/

/-- Python-dict insertion on an insertion-ordered association list. -/
def dictInsert {α : Type} (k : String) (v : α) (d : List (String × α)) :
    List (String × α) :=
  if d.any (fun p => p.1 == k) then d.map (fun p => if p.1 == k then (k, v) else p)
  else d ++ [(k, v)]

/-- The binary name: the entry point, with `.exe` appended iff Windows
(source line 234). -/
def binaryName (entry_point : String) (is_windows : Bool) : String :=
  entry_point ++ (if is_windows then ".exe" else "")

/-- The `dist-info` directory name (source line 252). -/
def distInfo (name version : String) : String :=
  normalize_package_name name ++ "-" ++ version ++ ".dist-info"

/-- The file mapping as it stands when `generate_record` is called: all
seven entries inserted in order, the RECORD entry holding the placeholder
`b""` (source lines 241–277). -/
def buildWheelFilesPre (binary_content : List Nat) (name version entry_point : String)
    (is_windows : Bool) (description requires_python : String)
    (author author_email license_ url readme_content : Option String)
    (platform_tag : String) : List (String × List Nat) :=
  let import_name := normalize_import_name name
  let bname := binaryName entry_point is_windows
  let dist_info := distInfo name version
  dictInsert (dist_info ++ "/RECORD") []
    (dictInsert (dist_info ++ "/entry_points.txt")
      (utf8Encode (generate_entry_points entry_point import_name))
      (dictInsert (dist_info ++ "/WHEEL")
        (utf8Encode (generate_wheel_metadata platform_tag))
        (dictInsert (dist_info ++ "/METADATA")
          (utf8Encode (generate_metadata name version description requires_python
            author author_email license_ url readme_content))
          (dictInsert (import_name ++ "/bin/" ++ bname) binary_content
            (dictInsert (import_name ++ "/__main__.py") (utf8Encode generate_main_py)
              (dictInsert (import_name ++ "/__init__.py")
                (utf8Encode (generate_init_py version bname)) []))))))

/-- The final file mapping of `build_wheel`: the RECORD placeholder
overwritten with the generated manifest bytes (source lines 278–279). -/
def buildWheelFiles (binary_content : List Nat) (name version entry_point : String)
    (is_windows : Bool) (description requires_python : String)
    (author author_email license_ url readme_content : Option String)
    (platform_tag : String) : List (String × List Nat) :=
  let pre := buildWheelFilesPre binary_content name version entry_point is_windows
    description requires_python author author_email license_ url readme_content
    platform_tag
  dictInsert (distInfo name version ++ "/RECORD") (utf8Encode (generate_record pre)) pre

/-- The wheel filename `build_wheel` writes (source line 282). -/
def wheelFilename (name version platform_tag : String) : String :=
  normalize_package_name name ++ "-" ++ version ++ "-py3-none-" ++ platform_tag ++ ".whl"

/-- The `external_attr` stored for one archive entry: paths containing
`/bin/` get a `ZipInfo` with Unix mode 0755 (source lines 289–293:
`S_IRWXU|S_IRGRP|S_IXGRP|S_IROTH|S_IXOTH`); every other entry is written
via `ZipFile.writestr` with a plain string name, which CPython's `zipfile`
stores with Unix mode 0600. -/
def zipExternalAttr (path : String) : Nat :=
  if strContains path "/bin/" then 0o755 <<< 16 else 0o600 <<< 16

/-- The `(path, external_attr)` pairs of the entries `build_wheel` writes
into the zip archive, in insertion order (source lines 286–295). -/
def buildWheelZipEntries (binary_content : List Nat) (name version entry_point : String)
    (is_windows : Bool) (description requires_python : String)
    (author author_email license_ url readme_content : Option String)
    (platform_tag : String) : List (String × Nat) :=
  (buildWheelFiles binary_content name version entry_point is_windows description
    requires_python author author_email license_ url readme_content
    platform_tag).map (fun pc => (pc.1, zipExternalAttr pc.1))

/-! ### The seven archive paths are pairwise distinct -/

theorem normalize_import_name_eq (s : String) :
    normalize_import_name s = normalize_package_name s := rfl

theorem str_append_ne_of_data_ne (x u w : String) (h : u.data ≠ w.data) :
    x ++ u ≠ x ++ w := by
  intro he
  apply h
  have h2 := congrArg String.data he
  rw [String.data_append, String.data_append] at h2
  exact List.append_cancel_left h2

theorem path_ne_init_main (x : String) :
    x ++ "/__init__.py" ≠ x ++ "/__main__.py" :=
  str_append_ne_of_data_ne _ _ _ (by decide)

theorem path_ne_init_bin (x B : String) :
    x ++ "/__init__.py" ≠ x ++ "/bin/" ++ B := by
  rw [String.append_assoc]
  apply str_append_ne_of_data_ne
  rw [show ("/bin/" ++ B).data = '/' :: 'b' :: ("in/".data ++ B.data) from rfl,
    show "/__init__.py".data = '/' :: '_' :: "_init__.py".data from rfl]
  intro h
  injection h with h1 h2
  injection h2 with h3 _
  exact absurd h3 (by decide)

theorem path_ne_main_bin (x B : String) :
    x ++ "/__main__.py" ≠ x ++ "/bin/" ++ B := by
  rw [String.append_assoc]
  apply str_append_ne_of_data_ne
  rw [show ("/bin/" ++ B).data = '/' :: 'b' :: ("in/".data ++ B.data) from rfl,
    show "/__main__.py".data = '/' :: '_' :: "_main__.py".data from rfl]
  intro h
  injection h with h1 h2
  injection h2 with h3 _
  exact absurd h3 (by decide)

theorem path_ne_pkg_dist (nm version u t : String) (c : Char) (us : List Char)
    (hu : u.data = c :: us) (hc : c ≠ '-') :
    normalize_package_name nm ++ u ≠ distInfo nm version ++ t := by
  intro h
  have h2 := congrArg String.data h
  have hdash : ("-" : String).data = ['-'] := rfl
  rw [distInfo] at h2
  simp only [String.data_append, hdash, List.append_assoc, List.cons_append,
    List.nil_append] at h2
  have h3 := List.append_cancel_left h2
  rw [hu] at h3
  injection h3 with h4 _
  exact hc h4

theorem path_ne_dist_tails (nm version t1 t2 : String) (h : t1.data ≠ t2.data) :
    distInfo nm version ++ t1 ≠ distInfo nm version ++ t2 :=
  str_append_ne_of_data_ne _ _ _ h

/-! ### Python-dict insertion of fresh and existing keys -/

theorem dictInsert_fresh {α : Type} (k : String) (v : α) (d : List (String × α))
    (h : ∀ p ∈ d, p.1 ≠ k) : dictInsert k v d = d ++ [(k, v)] := by
  have hany : d.any (fun p => p.1 == k) = false := by
    rw [List.any_eq_false]
    intro p hp
    simpa using h p hp
  rw [dictInsert, hany]
  simp

theorem dictInsert_overwrite_last {α : Type} (k : String) (v w : α)
    (d : List (String × α)) (h : ∀ p ∈ d, p.1 ≠ k) :
    dictInsert k v (d ++ [(k, w)]) = d ++ [(k, v)] := by
  have hany : (d ++ [(k, w)]).any (fun p => p.1 == k) = true := by
    rw [List.any_eq_true]
    exact ⟨(k, w), by simp, by simp⟩
  rw [dictInsert, hany]
  simp only [if_true]
  rw [List.map_append]
  congr 1
  · have hmap : d.map (fun p => if p.1 == k then (k, v) else p) = d.map id :=
      List.map_congr_left (fun p hp => by
        have hb : (p.1 == k) = false := beq_eq_false_iff_ne.mpr (h p hp)
        simp [hb])
    rw [hmap, List.map_id]
  · simp

theorem record_key_fresh (name version entry_point : String) (is_windows : Bool)
    {v1 v2 v3 v4 v5 v6 : List Nat} :
    ∀ p ∈ [(normalize_import_name name ++ "/__init__.py", v1),
           (normalize_import_name name ++ "/__main__.py", v2),
           (normalize_import_name name ++ "/bin/" ++ binaryName entry_point is_windows, v3),
           (distInfo name version ++ "/METADATA", v4),
           (distInfo name version ++ "/WHEEL", v5),
           (distInfo name version ++ "/entry_points.txt", v6)],
      p.1 ≠ distInfo name version ++ "/RECORD" := by
  intro p hp
  simp only [List.mem_cons, List.not_mem_nil, or_false] at hp
  rcases hp with rfl | rfl | rfl | rfl | rfl | rfl
  · rw [normalize_import_name_eq]
    exact path_ne_pkg_dist name version _ _ '/' _ rfl (by decide)
  · rw [normalize_import_name_eq]
    exact path_ne_pkg_dist name version _ _ '/' _ rfl (by decide)
  · rw [normalize_import_name_eq, String.append_assoc]
    exact path_ne_pkg_dist name version _ _ '/' _ rfl (by decide)
  · exact path_ne_dist_tails name version _ _ (by decide)
  · exact path_ne_dist_tails name version _ _ (by decide)
  · exact path_ne_dist_tails name version _ _ (by decide)

theorem buildWheelFilesPre_eq (binary_content : List Nat)
    (name version entry_point : String) (is_windows : Bool)
    (description requires_python : String)
    (author author_email license_ url readme_content : Option String)
    (platform_tag : String) :
    buildWheelFilesPre binary_content name version entry_point is_windows
      description requires_python author author_email license_ url readme_content
      platform_tag =
    [(normalize_import_name name ++ "/__init__.py",
        utf8Encode (generate_init_py version (binaryName entry_point is_windows))),
     (normalize_import_name name ++ "/__main__.py", utf8Encode generate_main_py),
     (normalize_import_name name ++ "/bin/" ++ binaryName entry_point is_windows,
        binary_content),
     (distInfo name version ++ "/METADATA",
        utf8Encode (generate_metadata name version description requires_python
          author author_email license_ url readme_content)),
     (distInfo name version ++ "/WHEEL", utf8Encode (generate_wheel_metadata platform_tag)),
     (distInfo name version ++ "/entry_points.txt",
        utf8Encode (generate_entry_points entry_point (normalize_import_name name))),
     (distInfo name version ++ "/RECORD", [])] := by
  simp only [buildWheelFilesPre]
  generalize utf8Encode (generate_init_py version (binaryName entry_point is_windows)) = v1
  generalize utf8Encode generate_main_py = v2
  generalize utf8Encode (generate_metadata name version description requires_python
    author author_email license_ url readme_content) = v4
  generalize utf8Encode (generate_wheel_metadata platform_tag) = v5
  generalize utf8Encode (generate_entry_points entry_point (normalize_import_name name)) = v6
  have e1 : dictInsert (normalize_import_name name ++ "/__init__.py") v1
      ([] : List (String × List Nat)) =
      [(normalize_import_name name ++ "/__init__.py", v1)] :=
    (dictInsert_fresh _ _ _ (by simp)).trans rfl
  have e2 : dictInsert (normalize_import_name name ++ "/__main__.py") v2
      [(normalize_import_name name ++ "/__init__.py", v1)] =
      [(normalize_import_name name ++ "/__init__.py", v1),
       (normalize_import_name name ++ "/__main__.py", v2)] := by
    refine (dictInsert_fresh _ _ _ ?_).trans rfl
    intro p hp
    simp only [List.mem_singleton] at hp
    rw [hp]
    exact path_ne_init_main _
  have e3 : dictInsert
      (normalize_import_name name ++ "/bin/" ++ binaryName entry_point is_windows)
      binary_content
      [(normalize_import_name name ++ "/__init__.py", v1),
       (normalize_import_name name ++ "/__main__.py", v2)] =
      [(normalize_import_name name ++ "/__init__.py", v1),
       (normalize_import_name name ++ "/__main__.py", v2),
       (normalize_import_name name ++ "/bin/" ++ binaryName entry_point is_windows,
        binary_content)] := by
    refine (dictInsert_fresh _ _ _ ?_).trans rfl
    intro p hp
    simp only [List.mem_cons, List.not_mem_nil, or_false] at hp
    rcases hp with rfl | rfl
    · exact path_ne_init_bin _ _
    · exact path_ne_main_bin _ _
  have e4 : dictInsert (distInfo name version ++ "/METADATA") v4
      [(normalize_import_name name ++ "/__init__.py", v1),
       (normalize_import_name name ++ "/__main__.py", v2),
       (normalize_import_name name ++ "/bin/" ++ binaryName entry_point is_windows,
        binary_content)] =
      [(normalize_import_name name ++ "/__init__.py", v1),
       (normalize_import_name name ++ "/__main__.py", v2),
       (normalize_import_name name ++ "/bin/" ++ binaryName entry_point is_windows,
        binary_content),
       (distInfo name version ++ "/METADATA", v4)] := by
    refine (dictInsert_fresh _ _ _ ?_).trans rfl
    intro p hp
    simp only [List.mem_cons, List.not_mem_nil, or_false] at hp
    rcases hp with rfl | rfl | rfl
    · rw [normalize_import_name_eq]
      exact path_ne_pkg_dist name version _ _ '/' _ rfl (by decide)
    · rw [normalize_import_name_eq]
      exact path_ne_pkg_dist name version _ _ '/' _ rfl (by decide)
    · rw [normalize_import_name_eq, String.append_assoc]
      exact path_ne_pkg_dist name version _ _ '/' _ rfl (by decide)
  have e5 : dictInsert (distInfo name version ++ "/WHEEL") v5
      [(normalize_import_name name ++ "/__init__.py", v1),
       (normalize_import_name name ++ "/__main__.py", v2),
       (normalize_import_name name ++ "/bin/" ++ binaryName entry_point is_windows,
        binary_content),
       (distInfo name version ++ "/METADATA", v4)] =
      [(normalize_import_name name ++ "/__init__.py", v1),
       (normalize_import_name name ++ "/__main__.py", v2),
       (normalize_import_name name ++ "/bin/" ++ binaryName entry_point is_windows,
        binary_content),
       (distInfo name version ++ "/METADATA", v4),
       (distInfo name version ++ "/WHEEL", v5)] := by
    refine (dictInsert_fresh _ _ _ ?_).trans rfl
    intro p hp
    simp only [List.mem_cons, List.not_mem_nil, or_false] at hp
    rcases hp with rfl | rfl | rfl | rfl
    · rw [normalize_import_name_eq]
      exact path_ne_pkg_dist name version _ _ '/' _ rfl (by decide)
    · rw [normalize_import_name_eq]
      exact path_ne_pkg_dist name version _ _ '/' _ rfl (by decide)
    · rw [normalize_import_name_eq, String.append_assoc]
      exact path_ne_pkg_dist name version _ _ '/' _ rfl (by decide)
    · exact path_ne_dist_tails name version _ _ (by decide)
  have e6 : dictInsert (distInfo name version ++ "/entry_points.txt") v6
      [(normalize_import_name name ++ "/__init__.py", v1),
       (normalize_import_name name ++ "/__main__.py", v2),
       (normalize_import_name name ++ "/bin/" ++ binaryName entry_point is_windows,
        binary_content),
       (distInfo name version ++ "/METADATA", v4),
       (distInfo name version ++ "/WHEEL", v5)] =
      [(normalize_import_name name ++ "/__init__.py", v1),
       (normalize_import_name name ++ "/__main__.py", v2),
       (normalize_import_name name ++ "/bin/" ++ binaryName entry_point is_windows,
        binary_content),
       (distInfo name version ++ "/METADATA", v4),
       (distInfo name version ++ "/WHEEL", v5),
       (distInfo name version ++ "/entry_points.txt", v6)] := by
    refine (dictInsert_fresh _ _ _ ?_).trans rfl
    intro p hp
    simp only [List.mem_cons, List.not_mem_nil, or_false] at hp
    rcases hp with rfl | rfl | rfl | rfl | rfl
    · rw [normalize_import_name_eq]
      exact path_ne_pkg_dist name version _ _ '/' _ rfl (by decide)
    · rw [normalize_import_name_eq]
      exact path_ne_pkg_dist name version _ _ '/' _ rfl (by decide)
    · rw [normalize_import_name_eq, String.append_assoc]
      exact path_ne_pkg_dist name version _ _ '/' _ rfl (by decide)
    · exact path_ne_dist_tails name version _ _ (by decide)
    · exact path_ne_dist_tails name version _ _ (by decide)
  have e7 : dictInsert (distInfo name version ++ "/RECORD") ([] : List Nat)
      [(normalize_import_name name ++ "/__init__.py", v1),
       (normalize_import_name name ++ "/__main__.py", v2),
       (normalize_import_name name ++ "/bin/" ++ binaryName entry_point is_windows,
        binary_content),
       (distInfo name version ++ "/METADATA", v4),
       (distInfo name version ++ "/WHEEL", v5),
       (distInfo name version ++ "/entry_points.txt", v6)] =
      [(normalize_import_name name ++ "/__init__.py", v1),
       (normalize_import_name name ++ "/__main__.py", v2),
       (normalize_import_name name ++ "/bin/" ++ binaryName entry_point is_windows,
        binary_content),
       (distInfo name version ++ "/METADATA", v4),
       (distInfo name version ++ "/WHEEL", v5),
       (distInfo name version ++ "/entry_points.txt", v6),
       (distInfo name version ++ "/RECORD", [])] :=
    (dictInsert_fresh _ _ _
      (record_key_fresh name version entry_point is_windows)).trans rfl
  rw [e1, e2, e3, e4, e5, e6, e7]

theorem buildWheelFiles_eq (binary_content : List Nat)
    (name version entry_point : String) (is_windows : Bool)
    (description requires_python : String)
    (author author_email license_ url readme_content : Option String)
    (platform_tag : String) :
    buildWheelFiles binary_content name version entry_point is_windows
      description requires_python author author_email license_ url readme_content
      platform_tag =
    [(normalize_import_name name ++ "/__init__.py",
        utf8Encode (generate_init_py version (binaryName entry_point is_windows))),
     (normalize_import_name name ++ "/__main__.py", utf8Encode generate_main_py),
     (normalize_import_name name ++ "/bin/" ++ binaryName entry_point is_windows,
        binary_content),
     (distInfo name version ++ "/METADATA",
        utf8Encode (generate_metadata name version description requires_python
          author author_email license_ url readme_content)),
     (distInfo name version ++ "/WHEEL", utf8Encode (generate_wheel_metadata platform_tag)),
     (distInfo name version ++ "/entry_points.txt",
        utf8Encode (generate_entry_points entry_point (normalize_import_name name))),
     (distInfo name version ++ "/RECORD",
        utf8Encode (generate_record (buildWheelFilesPre binary_content name version
          entry_point is_windows description requires_python author author_email
          license_ url readme_content platform_tag)))] := by
  simp only [buildWheelFiles]
  generalize utf8Encode (generate_record (buildWheelFilesPre binary_content name version
    entry_point is_windows description requires_python author author_email
    license_ url readme_content platform_tag)) = recBytes
  rw [buildWheelFilesPre_eq]
  exact (dictInsert_overwrite_last (distInfo name version ++ "/RECORD") recBytes []
    [(normalize_import_name name ++ "/__init__.py",
        utf8Encode (generate_init_py version (binaryName entry_point is_windows))),
     (normalize_import_name name ++ "/__main__.py", utf8Encode generate_main_py),
     (normalize_import_name name ++ "/bin/" ++ binaryName entry_point is_windows,
        binary_content),
     (distInfo name version ++ "/METADATA",
        utf8Encode (generate_metadata name version description requires_python
          author author_email license_ url readme_content)),
     (distInfo name version ++ "/WHEEL", utf8Encode (generate_wheel_metadata platform_tag)),
     (distInfo name version ++ "/entry_points.txt",
        utf8Encode (generate_entry_points entry_point (normalize_import_name name)))]
    (record_key_fresh name version entry_point is_windows)).trans rfl

/-- C2: For every call to build_wheel with import name I, distribution name
D, version V, entry point E, and Windows flag W, the archive file set
consists of exactly these entries in this insertion order: I/__init__.py,
I/__main__.py, I/bin/B (the executable bytes), D-V.dist-info/METADATA,
D-V.dist-info/WHEEL, D-V.dist-info/entry_points.txt, D-V.dist-info/RECORD,
where the binary name B equals E with a '.exe' suffix appended iff W
holds. -/
theorem C2_archive_file_set (binary_content : List Nat)
    (name version entry_point : String) (is_windows : Bool)
    (description requires_python : String)
    (author author_email license_ url readme_content : Option String)
    (platform_tag : String) :
    (buildWheelFiles binary_content name version entry_point is_windows
      description requires_python author author_email license_ url readme_content
      platform_tag).map Prod.fst =
      [normalize_import_name name ++ "/__init__.py",
       normalize_import_name name ++ "/__main__.py",
       normalize_import_name name ++ "/bin/" ++
         (entry_point ++ (if is_windows then ".exe" else "")),
       distInfo name version ++ "/METADATA",
       distInfo name version ++ "/WHEEL",
       distInfo name version ++ "/entry_points.txt",
       distInfo name version ++ "/RECORD"] ∧
    (buildWheelFiles binary_content name version entry_point is_windows
      description requires_python author author_email license_ url readme_content
      platform_tag)[2]? =
      some (normalize_import_name name ++ "/bin/" ++
        (entry_point ++ (if is_windows then ".exe" else "")), binary_content) := by
  constructor <;> rw [buildWheelFiles_eq] <;> rfl

/-! ### Which archive paths end in RECORD -/

theorem strEndsWith_append_right (x t u : String)
    (hlen : u.data.length ≤ t.data.length) :
    strEndsWith (x ++ t) u = strEndsWith t u := by
  rw [strEndsWith, strEndsWith, String.data_append, List.length_append]
  have harith : x.data.length + t.data.length - u.data.length =
      x.data.length + (t.data.length - u.data.length) := by omega
  rw [harith, List.drop_append]
  rw [decide_eq_decide]
  constructor
  · rintro ⟨-, h2⟩
    exact ⟨hlen, h2⟩
  · rintro ⟨-, h2⟩
    exact ⟨by omega, h2⟩

/-- Claim C1 as stated: the manifest rows correspond, in insertion order, to
the files of the built archive set, carrying `compute_file_hash` of the
file's bytes and its byte count, except that the manifest's own row has
empty hash and empty length. -/
def C1Claim (binary_content : List Nat) (name version entry_point : String)
    (is_windows : Bool) (description requires_python : String)
    (author author_email license_ url readme_content : Option String)
    (platform_tag : String) : Prop :=
  recordRows (buildWheelFilesPre binary_content name version entry_point is_windows
    description requires_python author author_email license_ url readme_content
    platform_tag) =
  (buildWheelFilesPre binary_content name version entry_point is_windows
    description requires_python author author_email license_ url readme_content
    platform_tag).map (fun pc =>
      if pc.1 = distInfo name version ++ "/RECORD" then (pc.1, "", "")
      else (pc.1, compute_file_hash pc.2, toString pc.2.length))

/-- C1 counterexample: with entry point "RECORD" on a non-Windows target,
the binary's own row in the manifest gets an empty hash and empty length
although it is not the manifest itself, because generate_record exempts
every path ending in "RECORD". -/
theorem C1_counterexample :
    ¬ C1Claim [0] "tool" "1.0" "RECORD" false "d" ">=3.10" none none none none
      none "t" := by
  intro h
  rw [C1Claim] at h
  have h2 := congrArg (fun l => l[2]?) h
  have hL : (recordRows (buildWheelFilesPre [0] "tool" "1.0" "RECORD" false "d"
      ">=3.10" none none none none none "t"))[2]? =
      some ("tool/bin/RECORD", "", "") := rfl
  have hR : ((buildWheelFilesPre [0] "tool" "1.0" "RECORD" false "d" ">=3.10"
      none none none none none "t").map (fun pc =>
        if pc.1 = distInfo "tool" "1.0" ++ "/RECORD" then (pc.1, "", "")
        else (pc.1, compute_file_hash pc.2, toString pc.2.length)))[2]? =
      some ("tool/bin/RECORD", compute_file_hash [0], "1") := rfl
  simp only at h2
  rw [hL, hR] at h2
  simp only [Option.some.injEq, Prod.mk.injEq] at h2
  exact absurd h2.2.2 (by decide)

/-- C1 (amended): provided the binary entry's path does not itself end in
"RECORD" (the code exempts every path with that suffix, not only the
manifest), the manifest produced by generate_record contains, for every
file of the built archive set except the manifest itself, a row
(path, hash, length) in insertion order whose hash equals compute_file_hash
of that file's bytes and whose length equals the file's byte count; the
manifest's own row has empty hash and empty length. -/
theorem C1_record_manifest (binary_content : List Nat)
    (name version entry_point : String) (is_windows : Bool)
    (description requires_python : String)
    (author author_email license_ url readme_content : Option String)
    (platform_tag : String)
    (h : strEndsWith (normalize_import_name name ++ "/bin/" ++
      binaryName entry_point is_windows) "RECORD" = false) :
    C1Claim binary_content name version entry_point is_windows description
      requires_python author author_email license_ url readme_content
      platform_tag := by
  rw [C1Claim, recordRows, buildWheelFilesPre_eq]
  have g := @record_key_fresh name version entry_point is_windows [] [] [] [] [] []
  have g1 := g _ (by simp : ((normalize_import_name name ++ "/__init__.py", []) ∈ _))
  have g2 := g _ (by simp : ((normalize_import_name name ++ "/__main__.py", []) ∈ _))
  have g3 := g _ (by simp : ((normalize_import_name name ++ "/bin/" ++
    binaryName entry_point is_windows, []) ∈ _))
  have g4 := g _ (by simp : ((distInfo name version ++ "/METADATA", []) ∈ _))
  have g5 := g _ (by simp : ((distInfo name version ++ "/WHEEL", []) ∈ _))
  have g6 := g _ (by simp : ((distInfo name version ++ "/entry_points.txt", []) ∈ _))
  have f1 : strEndsWith (normalize_import_name name ++ "/__init__.py") "RECORD" = false := by
    rw [strEndsWith_append_right _ _ _ (by decide)]
    decide
  have f2 : strEndsWith (normalize_import_name name ++ "/__main__.py") "RECORD" = false := by
    rw [strEndsWith_append_right _ _ _ (by decide)]
    decide
  have f4 : strEndsWith (distInfo name version ++ "/METADATA") "RECORD" = false := by
    rw [strEndsWith_append_right _ _ _ (by decide)]
    decide
  have f5 : strEndsWith (distInfo name version ++ "/WHEEL") "RECORD" = false := by
    rw [strEndsWith_append_right _ _ _ (by decide)]
    decide
  have f6 : strEndsWith (distInfo name version ++ "/entry_points.txt") "RECORD" = false := by
    rw [strEndsWith_append_right _ _ _ (by decide)]
    decide
  have f7 : strEndsWith (distInfo name version ++ "/RECORD") "RECORD" = true := by
    rw [strEndsWith_append_right _ _ _ (by decide)]
    decide
  simp only [List.map_cons, List.map_nil, f1, f2, f4, f5, f6, f7, h]
  simp [g1, g2, g3, g4, g5, g6]

/-- Witness for C1 (amended) at a concrete build. -/
theorem C1_record_manifest_witness :
    strEndsWith (normalize_import_name "tool" ++ "/bin/" ++ binaryName "tool" false)
      "RECORD" = false ∧
    C1Claim [0] "tool" "1.0" "tool" false "d" ">=3.10" none none none none
      none "t" :=
  ⟨by decide, C1_record_manifest [0] "tool" "1.0" "tool" false "d" ">=3.10"
    none none none none none "t" (by decide)⟩

/-- C3: For every call to build_wheel, the written archive's filename is
exactly '{normalized_distribution_name}-{version}-py3-none-{platform_tag}.whl';
in particular, name "my-cool-tool", version "1.0.0", platform tag
"manylinux_2_17_x86_64" yields filename
my_cool_tool-1.0.0-py3-none-manylinux_2_17_x86_64.whl. -/
theorem C3_wheel_filename :
    (∀ name version platform_tag : String,
      wheelFilename name version platform_tag =
        normalize_package_name name ++ "-" ++ version ++ "-py3-none-" ++
          platform_tag ++ ".whl") ∧
    wheelFilename "my-cool-tool" "1.0.0" "manylinux_2_17_x86_64" =
      "my_cool_tool-1.0.0-py3-none-manylinux_2_17_x86_64.whl" :=
  ⟨fun _ _ _ => rfl, by decide⟩

/-! ### Permission metadata of the zip entries -/

/-- The spec's notion of a path "containing a `bin/` path segment": a
complete path segment `bin` followed by `/`, i.e. `bin/` at the very start
or `/bin/` anywhere. -/
def hasBinSegment (p : String) : Bool :=
  strStartsWith p "bin/" || strContains p "/bin/"

theorem strContains_bin (x B : String) :
    strContains (x ++ "/bin/" ++ B) "/bin/" = true := by
  rw [strContains, List.any_eq_true]
  refine ⟨x.data.length, ?_, ?_⟩
  · rw [List.mem_range]
    simp [String.data_append]
    omega
  · apply decide_eq_true
    show ((x ++ "/bin/" ++ B).data.drop x.data.length).take 5 = "/bin/".data
    rw [String.append_assoc, String.data_append, List.drop_left,
      show ("/bin/" ++ B).data = "/bin/".data ++ B.data from String.data_append _ _,
      show (5 : Nat) = ("/bin/" : String).data.length from rfl]
    exact List.take_left _ _

/-- Claim C4 as stated: entries whose path contains a `bin/` path segment
store Unix mode 0755 in their permission metadata (the high 16 bits of
`external_attr`), and no other entry has any execute bit (0o111) set. -/
def C4Claim (binary_content : List Nat) (name version entry_point : String)
    (is_windows : Bool) (description requires_python : String)
    (author author_email license_ url readme_content : Option String)
    (platform_tag : String) : Prop :=
  ∀ e ∈ buildWheelZipEntries binary_content name version entry_point is_windows
      description requires_python author author_email license_ url readme_content
      platform_tag,
    (hasBinSegment e.1 = true → e.2 >>> 16 = 0o755) ∧
    (hasBinSegment e.1 = false → (e.2 >>> 16) &&& 0o111 = 0)

/-- C4 counterexample: for a package named "bin" the launcher modules live
under a leading `bin/` path segment, yet they are stored with mode 0600,
because the code tests for the substring "/bin/" only. -/
theorem C4_counterexample :
    ¬ C4Claim [0] "bin" "1.0" "bin" false "d" ">=3.10" none none none none
      none "t" := by
  intro h
  have hz : (("bin/__init__.py" : String), (0o600 <<< 16 : Nat)) ∈
      buildWheelZipEntries [0] "bin" "1.0" "bin" false "d" ">=3.10" none none
        none none none "t" := by
    rw [buildWheelZipEntries, buildWheelFiles_eq]
    apply List.mem_map.mpr
    exact ⟨(normalize_import_name "bin" ++ "/__init__.py",
      utf8Encode (generate_init_py "1.0" (binaryName "bin" false))),
      List.mem_cons_self _ _, by decide⟩
  have h1 := (h _ hz).1 (by decide)
  exact absurd h1 (by decide)

/-- C4 (amended): in every archive written by build_wheel, an entry whose
internal path contains "/bin/" as a substring (the code's test: a `bin`
segment preceded by another path component) stores Unix mode 0755 — owner
rwx, group r-x, other r-x, all execute bits set — in its permission
metadata; every other entry stores mode 0600, which has no execute bit
set; and the bundled executable's entry I/bin/B is such a 0755 entry. -/
theorem C4_zip_permissions (binary_content : List Nat)
    (name version entry_point : String) (is_windows : Bool)
    (description requires_python : String)
    (author author_email license_ url readme_content : Option String)
    (platform_tag : String) :
    (∀ e ∈ buildWheelZipEntries binary_content name version entry_point is_windows
        description requires_python author author_email license_ url readme_content
        platform_tag,
      (strContains e.1 "/bin/" = true →
        e.2 >>> 16 = 0o755 ∧ (e.2 >>> 16) &&& 0o111 = 0o111) ∧
      (strContains e.1 "/bin/" = false →
        e.2 >>> 16 = 0o600 ∧ (e.2 >>> 16) &&& 0o111 = 0)) ∧
    (normalize_import_name name ++ "/bin/" ++ binaryName entry_point is_windows,
      (0o755 <<< 16 : Nat)) ∈
      buildWheelZipEntries binary_content name version entry_point is_windows
        description requires_python author author_email license_ url readme_content
        platform_tag := by
  constructor
  · intro e he
    obtain ⟨pc, hpc, rfl⟩ := List.mem_map.mp he
    constructor
    · intro hc
      have ha : zipExternalAttr pc.1 = 0o755 <<< 16 := by
        rw [zipExternalAttr, if_pos hc]
      constructor
      · show zipExternalAttr pc.1 >>> 16 = 0o755
        rw [ha]; decide
      · show (zipExternalAttr pc.1 >>> 16) &&& 0o111 = 0o111
        rw [ha]; decide
    · intro hc
      have ha : zipExternalAttr pc.1 = 0o600 <<< 16 := by
        rw [zipExternalAttr, if_neg (by simp [hc])]
      constructor
      · show zipExternalAttr pc.1 >>> 16 = 0o600
        rw [ha]; decide
      · show (zipExternalAttr pc.1 >>> 16) &&& 0o111 = 0
        rw [ha]; decide
  · rw [buildWheelZipEntries, buildWheelFiles_eq]
    apply List.mem_map.mpr
    refine ⟨(normalize_import_name name ++ "/bin/" ++
      binaryName entry_point is_windows, binary_content), by simp, ?_⟩
    show (_, zipExternalAttr _) = _
    rw [zipExternalAttr, if_pos (strContains_bin _ _)]

/-- Witness for C4 (amended): the bundled executable's entry of a concrete
build reports mode 0755 with all execute bits set. -/
theorem C4_zip_permissions_witness :
    ((0o755 <<< 16 : Nat) >>> 16 = 0o755) ∧
    (((0o755 <<< 16 : Nat) >>> 16) &&& 0o111 = 0o111) := by
  have h := C4_zip_permissions [0] "tool" "1.0" "tool" false "d" ">=3.10"
    none none none none none "t"
  exact (h.1 _ h.2).1 (by decide)

/-! ## Multi-target driver `build_wheels` (source lines 300–433)

The driver touches the file system and an external compiler; it is modelled
over an explicit environment recording the facts it consults: whether the
Go directory and its `go.mod` exist, which files exist, the directory's
base name, and which platform compilations succeed. -/

/-- `PLATFORM_MAPPINGS` from the source (lines 20–29): canonical platform
key to (goos, goarch, wheel platform tag). -/
def PLATFORM_MAPPINGS : List (String × String × String × String) :=
  [("linux-amd64", "linux", "amd64", "manylinux_2_17_x86_64"),
   ("linux-arm64", "linux", "arm64", "manylinux_2_17_aarch64"),
   ("linux-amd64-musl", "linux", "amd64", "musllinux_1_2_x86_64"),
   ("linux-arm64-musl", "linux", "arm64", "musllinux_1_2_aarch64"),
   ("darwin-amd64", "darwin", "amd64", "macosx_10_9_x86_64"),
   ("darwin-arm64", "darwin", "arm64", "macosx_11_0_arm64"),
   ("windows-amd64", "windows", "amd64", "win_amd64"),
   ("windows-arm64", "windows", "arm64", "win_arm64")]

/-- `DEFAULT_PLATFORMS` from the source (lines 31–40). -/
def DEFAULT_PLATFORMS : List String :=
  ["linux-amd64", "linux-arm64", "linux-amd64-musl", "linux-arm64-musl",
   "darwin-amd64", "darwin-arm64", "windows-amd64", "windows-arm64"]

/-- Lookup of a platform key in the mapping table
(`platform_str in PLATFORM_MAPPINGS` / `PLATFORM_MAPPINGS[platform_str]`). -/
def lookupPlatform (k : String) : Option (String × String × String) :=
  PLATFORM_MAPPINGS.lookup k

/-- The fatal validation errors `build_wheels` raises. -/
inductive BuildError where
  | goDirNotFound
  | notGoModule
  | readmeNotFound
deriving DecidableEq

/-- The file-system and toolchain facts `build_wheels` consults. -/
structure BuildEnv where
  goDirExists : Bool
  goModExists : Bool
  fileExists : String → Bool
  goDirBasename : String
  compileOk : String → Bool

/-- The caller-supplied arguments of `build_wheels` that its control flow
depends on. -/
structure BuildArgs where
  name : Option String
  version : String
  entry_point : Option String
  platforms : Option (List String)
  readme : Option String

/-- The per-platform loop of `build_wheels` (source lines 387–431): an
unknown platform key is skipped with a warning; a known key is compiled
(recorded here as an attempt) and, on compiler success, packaged via
`build_wheel`; a compiler failure skips that target. Returns the built
wheel filenames in order together with the attempted compilations. -/
def buildWheelsLoop (env : BuildEnv) (name version : String) :
    List String → List String × List String
  | [] => ([], [])
  | p :: rest =>
      match lookupPlatform p with
      | none => buildWheelsLoop env name version rest
      | some desc =>
          let r := buildWheelsLoop env name version rest
          if env.compileOk p then
            (wheelFilename name version desc.2.2 :: r.1, p :: r.2)
          else (r.1, p :: r.2)

/-- The README existence check of `build_wheels` (source lines 353–359),
performed only for a truthy (non-empty) README argument: validation of the
Go directory is lines 344–351, defaulting of name, entry point and
platforms lines 361–369, then the build loop; the outcome is paired with
the compile attempts made. -/
def readmeOk (env : BuildEnv) : Option String → Bool
  | some p => if p = "" then true else env.fileExists p
  | none => true

/-- Function `build_wheels` from the source, modelled over `BuildEnv`. -/
def build_wheels (env : BuildEnv) (args : BuildArgs) :
    Except BuildError (List String) × List String :=
  if env.goDirExists = false then (Except.error BuildError.goDirNotFound, [])
  else if env.goModExists = false then (Except.error BuildError.notGoModule, [])
  else
    if readmeOk env args.readme = false then
      (Except.error BuildError.readmeNotFound, [])
    else
      let name := args.name.getD env.goDirBasename
      let _entry_point := args.entry_point.getD name
      let plats := args.platforms.getD DEFAULT_PLATFORMS
      let r := buildWheelsLoop env name args.version plats
      (Except.ok r.1, r.2)

/-- C8: build_wheels raises a fatal error before any compilation attempt
when the source directory does not exist, when the directory lacks its
module descriptor file (go.mod), or when a caller-supplied README path does
not exist; in each of these cases no archive is produced and the whole run
aborts. (A caller-supplied README path means a non-empty one: the source
tests the argument for truthiness before checking existence.) -/
theorem C8_validation_errors (env : BuildEnv) (args : BuildArgs) :
    (env.goDirExists = false →
      build_wheels env args = (Except.error BuildError.goDirNotFound, [])) ∧
    (env.goDirExists = true → env.goModExists = false →
      build_wheels env args = (Except.error BuildError.notGoModule, [])) ∧
    (∀ p, env.goDirExists = true → env.goModExists = true →
      args.readme = some p → p ≠ "" → env.fileExists p = false →
      build_wheels env args = (Except.error BuildError.readmeNotFound, [])) := by
  refine ⟨?_, ?_, ?_⟩
  · intro h
    simp [build_wheels, h]
  · intro h1 h2
    simp [build_wheels, h1, h2]
  · intro p h1 h2 h3 h4 h5
    simp [build_wheels, readmeOk, h1, h2, h3, h4, h5]

/-- Witness for C8: each of the three validation failures at a concrete
environment. -/
theorem C8_validation_errors_witness :
    build_wheels ⟨false, true, fun _ => true, "t", fun _ => true⟩
        ⟨none, "1.0", none, none, none⟩ =
      (Except.error BuildError.goDirNotFound, []) ∧
    build_wheels ⟨true, false, fun _ => true, "t", fun _ => true⟩
        ⟨none, "1.0", none, none, none⟩ =
      (Except.error BuildError.notGoModule, []) ∧
    build_wheels ⟨true, true, fun _ => false, "t", fun _ => true⟩
        ⟨none, "1.0", none, none, some "README.md"⟩ =
      (Except.error BuildError.readmeNotFound, []) :=
  ⟨(C8_validation_errors _ _).1 rfl,
   (C8_validation_errors _ _).2.1 rfl rfl,
   (C8_validation_errors _ _).2.2 "README.md" rfl rfl rfl (by decide) rfl⟩

theorem buildWheelsLoop_all_ok (env : BuildEnv) (name version : String)
    (ps : List String) (hok : ∀ p ∈ ps, env.compileOk p = true) :
    (buildWheelsLoop env name version ps).1 =
      ps.filterMap (fun p => (lookupPlatform p).map
        (fun desc => wheelFilename name version desc.2.2)) := by
  induction ps with
  | nil => rfl
  | cons p rest ih =>
      have hrest : ∀ q ∈ rest, env.compileOk q = true :=
        fun q hq => hok q (List.mem_cons_of_mem _ hq)
      cases hd : lookupPlatform p with
      | none =>
          simp only [buildWheelsLoop, hd, List.filterMap_cons]
          simpa using ih hrest
      | some desc =>
          have hp : env.compileOk p = true := hok p (List.mem_cons_self _ _)
          simp only [buildWheelsLoop, hd, hp, List.filterMap_cons, if_true]
          simp [ih hrest]

theorem filterMap_known_length (f : String × String × String → String)
    (ps : List String) :
    (ps.filterMap (fun p => (lookupPlatform p).map f)).length +
      (ps.filter (fun p => (lookupPlatform p).isNone)).length = ps.length := by
  induction ps with
  | nil => rfl
  | cons p rest ih =>
      cases hd : lookupPlatform p with
      | none =>
          simp only [List.filterMap_cons, List.filter_cons, hd]
          simp only [Option.map_none', Option.isNone_none, if_true]
          simp only [List.length_cons]
          omega
      | some desc =>
          simp only [List.filterMap_cons, List.filter_cons, hd]
          simp only [Option.map_some', Option.isNone_some, Bool.false_eq_true,
            if_false]
          simp only [List.length_cons]
          omega

/-- C9: For every requested platform list, platform keys not present in the
platform mapping table are skipped without raising an error: a run over N
requested keys of which one is unknown produces archives for exactly the
N−1 known keys and no fatal error. -/
theorem C9_unknown_platform_skipped (env : BuildEnv) (args : BuildArgs)
    (ps : List String)
    (h1 : env.goDirExists = true) (h2 : env.goModExists = true)
    (h3 : readmeOk env args.readme = true) (h4 : args.platforms = some ps)
    (h5 : ∀ p ∈ ps, env.compileOk p = true)
    (h6 : (ps.filter (fun p => (lookupPlatform p).isNone)).length = 1) :
    ∃ ws : List String,
      (build_wheels env args).1 = Except.ok ws ∧
      ws = ps.filterMap (fun p => (lookupPlatform p).map
        (fun desc => wheelFilename (args.name.getD env.goDirBasename)
          args.version desc.2.2)) ∧
      ws.length = ps.length - 1 := by
  refine ⟨(buildWheelsLoop env (args.name.getD env.goDirBasename)
    args.version ps).1, ?_, ?_, ?_⟩
  · simp [build_wheels, h1, h2, h3, h4]
  · exact buildWheelsLoop_all_ok env _ _ ps h5
  · rw [buildWheelsLoop_all_ok env _ _ ps h5]
    have hlen := filterMap_known_length
      (fun desc => wheelFilename (args.name.getD env.goDirBasename)
        args.version desc.2.2) ps
    omega

/-- Witness for C9: three requested platforms of which "bogus" is unknown
yield exactly two archives and no error. -/
theorem C9_unknown_platform_skipped_witness :
    ∃ ws : List String,
      (build_wheels ⟨true, true, fun _ => true, "t", fun _ => true⟩
        ⟨some "tool", "1.0", none,
         some ["linux-amd64", "bogus", "darwin-arm64"], none⟩).1 =
        Except.ok ws ∧
      ws = (["linux-amd64", "bogus", "darwin-arm64"] : List String).filterMap
        (fun p => (lookupPlatform p).map (fun desc =>
          wheelFilename ((some "tool").getD "t") "1.0" desc.2.2)) ∧
      ws.length = (["linux-amd64", "bogus", "darwin-arm64"] : List String).length - 1 :=
  C9_unknown_platform_skipped _ _ _ rfl rfl rfl rfl (fun p _ => rfl) (by decide)
